import Mathlib

/-!
Shallow embedding of the client-side RPC access layer fragment:

* google/cloud/bigtable/client_options.cc — connection-pool sizing and
  ClientOptions construction (credential selection and emulator override).
* google/cloud/pubsub/internal/subscriber_logging.h — the logging decorator
  over the subscriber stub capability set (bodies modelled from the spec,
  the .cc implementation is not part of the sampled sources).
* google/cloud/pubsub/topic_admin_connection_test.cc — the DeleteWithLogging
  scenario (connection assembly modelled from the spec).

Environment reads (getenv, hardware_concurrency) are passed explicitly:
the C++ environment state becomes a parameter of each embedded function.
-/

/-! ## Bigtable client options (from client_options.cc) -/

/-- `#define BIGTABLE_CLIENT_DEFAULT_CONNECTION_POOL_SIZE 4` -/
def BIGTABLE_CLIENT_DEFAULT_CONNECTION_POOL_SIZE : Nat := 4

/-- `#define BIGTABLE_CLIENT_DEFAULT_CHANNELS_PER_CPU 2` -/
def BIGTABLE_CLIENT_DEFAULT_CHANNELS_PER_CPU : Nat := 2

/-- Modulus of `std::size_t` arithmetic (64-bit platform). -/
def SIZE_T_MOD : Nat := 2 ^ 64

/-- Range bound of `std::thread::hardware_concurrency()`, which returns
`unsigned int` (32-bit). -/
def UNSIGNED_INT_BOUND : Nat := 2 ^ 32

/-- Credential handles.  `grpc::ChannelCredentials` objects are opaque; the
two factory results the source distinguishes are modelled as constructors,
and arbitrary caller-supplied handles as `supplied`. -/
inductive Cred where
  | insecureChannelCredentials
  | googleDefaultCredentials
  | supplied (id : Nat)
  deriving DecidableEq

/-- `BigtableDefaultCredentials` from client_options.cc: consults
`getenv("BIGTABLE_EMULATOR_HOST")` (the `env` parameter); if set, returns
insecure channel credentials, otherwise Google default credentials. -/
def BigtableDefaultCredentials (env : Option String) : Cred :=
  match env with
  | some _ => Cred.insecureChannelCredentials
  | none => Cred.googleDefaultCredentials

/-- `CalculateDefaultConnectionPoolSize` from client_options.cc: the
hardware-concurrency hint `cpu_count` (an `unsigned int` value widened to
`std::size_t`) is multiplied by the per-CPU channel count when positive,
otherwise the fixed default pool size is returned.  The multiplication is
`std::size_t` arithmetic, hence the explicit modulus. -/
def CalculateDefaultConnectionPoolSize (cpu_count : Nat) : Nat :=
  if cpu_count > 0 then
    (cpu_count * BIGTABLE_CLIENT_DEFAULT_CHANNELS_PER_CPU) % SIZE_T_MOD
  else
    BIGTABLE_CLIENT_DEFAULT_CONNECTION_POOL_SIZE

/-- The fields of `ClientOptions` the sampled source initialises (the
channel-arguments/user-agent stamp is not modelled; no claim mentions it). -/
structure ClientOptions where
  credentials : Cred
  connection_pool_size : Nat
  data_endpoint : String
  admin_endpoint : String
  deriving DecidableEq

/-- The credentials-supplied constructor
`ClientOptions::ClientOptions(std::shared_ptr<grpc::ChannelCredentials>)`.
It runs in an ambient environment (`env`) and with a hardware-concurrency
hint (`hint`), but its body never calls `getenv`: the `env` parameter is
unused, exactly as in the source. -/
def ClientOptions.mkWithCredentials (creds : Cred) (env : Option String)
    (hint : Nat) : ClientOptions :=
  { credentials := creds
    connection_pool_size := CalculateDefaultConnectionPoolSize hint
    data_endpoint := "bigtable.googleapis.com"
    admin_endpoint := "bigtableadmin.googleapis.com" }

/-- The default constructor `ClientOptions::ClientOptions()`: delegates to
the credentials-supplied constructor with `BigtableDefaultCredentials()`,
then re-reads `BIGTABLE_EMULATOR_HOST` and, if set, overwrites both
endpoints with the emulator value. -/
def ClientOptions.mkDefault (env : Option String) (hint : Nat) :
    ClientOptions :=
  let opts := ClientOptions.mkWithCredentials (BigtableDefaultCredentials env)
    env hint
  match env with
  | some emulator =>
      { opts with data_endpoint := emulator, admin_endpoint := emulator }
  | none => opts

/-- The ambient state `CalculateDefaultConnectionPoolSize` executes in: the
hardware-concurrency hint it reads, plus state it never touches. -/
structure WorldState where
  hardwareConcurrency : Nat
  emulatorHost : Option String
  otherState : Nat
  deriving DecidableEq

/-- State-passing form of `CalculateDefaultConnectionPoolSize`: the body
only reads `hardware_concurrency()` and performs arithmetic, so the world
state is returned unmodified. -/
def CalculateDefaultConnectionPoolSizeSt (s : WorldState) :
    Nat × WorldState :=
  (CalculateDefaultConnectionPoolSize s.hardwareConcurrency, s)

/-- C2: for every hardware-concurrency hint H in the range of
`unsigned int`, the sizing function returns H * 2 when H > 0 and 4 when
H = 0; in particular 8 yields 16 and 0 yields 4. -/
theorem calculateDefaultConnectionPoolSize_spec :
    (∀ H : Nat, H < UNSIGNED_INT_BOUND →
      CalculateDefaultConnectionPoolSize H = if H > 0 then H * 2 else 4) ∧
    CalculateDefaultConnectionPoolSize 8 = 16 ∧
    CalculateDefaultConnectionPoolSize 0 = 4 := by
  refine ⟨fun H hH => ?_, by decide, by decide⟩
  unfold UNSIGNED_INT_BOUND at hH
  norm_num at hH
  unfold CalculateDefaultConnectionPoolSize
  unfold BIGTABLE_CLIENT_DEFAULT_CHANNELS_PER_CPU
  unfold BIGTABLE_CLIENT_DEFAULT_CONNECTION_POOL_SIZE SIZE_T_MOD
  by_cases h : H > 0
  · simp only [h, if_true]
    exact Nat.mod_eq_of_lt (show H * 2 < 18446744073709551616 by omega)
  · simp [h]

/-- Witness for C2 at the concrete hint 8. -/
theorem calculateDefaultConnectionPoolSize_spec_witness :
    CalculateDefaultConnectionPoolSize 8 = if 8 > 0 then 8 * 2 else 4 :=
  calculateDefaultConnectionPoolSize_spec.1 8 (by decide)

/-- C3: the sizing function never returns 0 (its result is at least 1), and
every constructed ClientOptions — via either constructor, in any
environment — has connection_pool_size at least 1. -/
theorem connectionPoolSize_ge_one :
    (∀ H : Nat, H < UNSIGNED_INT_BOUND →
      1 ≤ CalculateDefaultConnectionPoolSize H) ∧
    (∀ (env : Option String) (hint : Nat), hint < UNSIGNED_INT_BOUND →
      1 ≤ (ClientOptions.mkDefault env hint).connection_pool_size) ∧
    (∀ (c : Cred) (env : Option String) (hint : Nat),
      hint < UNSIGNED_INT_BOUND →
      1 ≤ (ClientOptions.mkWithCredentials c env hint).connection_pool_size)
    := by
  have base : ∀ H : Nat, H < UNSIGNED_INT_BOUND →
      1 ≤ CalculateDefaultConnectionPoolSize H := by
    intro H hH
    have h := calculateDefaultConnectionPoolSize_spec.1 H hH
    rw [h]
    by_cases hp : H > 0
    · simp [hp]; omega
    · simp [hp]
  refine ⟨base, fun env hint hh => ?_, fun c env hint hh => ?_⟩
  · cases env with
    | some e =>
        simpa [ClientOptions.mkDefault, ClientOptions.mkWithCredentials]
          using base hint hh
    | none =>
        simpa [ClientOptions.mkDefault, ClientOptions.mkWithCredentials]
          using base hint hh
  · simpa [ClientOptions.mkWithCredentials] using base hint hh

/-- Witness for C3 at hint 0 and hint 7, through both constructors. -/
theorem connectionPoolSize_ge_one_witness :
    1 ≤ CalculateDefaultConnectionPoolSize 0 ∧
    1 ≤ ClientOptions.connection_pool_size
          (ClientOptions.mkDefault (some "localhost:8086") 0) ∧
    1 ≤ ClientOptions.connection_pool_size
          (ClientOptions.mkWithCredentials (Cred.supplied 3) none 7) :=
  ⟨connectionPoolSize_ge_one.1 0 (by decide),
   connectionPoolSize_ge_one.2.1 (some "localhost:8086") 0 (by decide),
   connectionPoolSize_ge_one.2.2 (Cred.supplied 3) none 7 (by decide)⟩

/-- C1 counterexample: constructing through the credentials-supplied
constructor with the emulator override set to "localhost:8086" does NOT
yield the override as data endpoint — the claim that both constructor paths
apply the override fails at this concrete input. -/
theorem credentialsCtor_emulator_cex :
    ¬ ((ClientOptions.mkWithCredentials (Cred.supplied 0)
          (some "localhost:8086") 4).data_endpoint = "localhost:8086" ∧
       (ClientOptions.mkWithCredentials (Cred.supplied 0)
          (some "localhost:8086") 4).admin_endpoint = "localhost:8086") := by
  decide

/-- C1 amended: only the default (no-credentials) constructor applies the
emulator override — with the override set it yields
data_endpoint = admin_endpoint = override; the credentials-supplied
constructor keeps the fixed production endpoints in every environment. -/
theorem emulator_override_default_ctor :
    (∀ (v : String) (hint : Nat),
      (ClientOptions.mkDefault (some v) hint).data_endpoint = v ∧
      (ClientOptions.mkDefault (some v) hint).admin_endpoint = v) ∧
    (∀ (c : Cred) (env : Option String) (hint : Nat),
      (ClientOptions.mkWithCredentials c env hint).data_endpoint =
        "bigtable.googleapis.com" ∧
      (ClientOptions.mkWithCredentials c env hint).admin_endpoint =
        "bigtableadmin.googleapis.com") := by
  constructor
  · intro v hint
    simp [ClientOptions.mkDefault, ClientOptions.mkWithCredentials]
  · intro c env hint
    simp [ClientOptions.mkWithCredentials]

/-- C4: the emulator override is atomic.  Through the default constructor,
the override being present yields insecure credentials AND both endpoints
equal to the override; the override being absent yields Google default
credentials AND both production endpoints.  The credentials-supplied
constructor applies neither effect: credentials stay as supplied and the
endpoints stay the production pair.  No constructed state has exactly one
of the two effects. -/
theorem emulator_override_atomic :
    (∀ (v : String) (hint : Nat),
      (ClientOptions.mkDefault (some v) hint).credentials =
        Cred.insecureChannelCredentials ∧
      (ClientOptions.mkDefault (some v) hint).data_endpoint = v ∧
      (ClientOptions.mkDefault (some v) hint).admin_endpoint = v) ∧
    (∀ hint : Nat,
      (ClientOptions.mkDefault none hint).credentials =
        Cred.googleDefaultCredentials ∧
      (ClientOptions.mkDefault none hint).data_endpoint =
        "bigtable.googleapis.com" ∧
      (ClientOptions.mkDefault none hint).admin_endpoint =
        "bigtableadmin.googleapis.com") ∧
    (∀ (c : Cred) (env : Option String) (hint : Nat),
      (ClientOptions.mkWithCredentials c env hint).credentials = c ∧
      (ClientOptions.mkWithCredentials c env hint).data_endpoint =
        "bigtable.googleapis.com" ∧
      (ClientOptions.mkWithCredentials c env hint).admin_endpoint =
        "bigtableadmin.googleapis.com") := by
  refine ⟨fun v hint => ?_, fun hint => ?_, fun c env hint => ?_⟩ <;>
    simp [ClientOptions.mkDefault, ClientOptions.mkWithCredentials,
      BigtableDefaultCredentials]

/-- C5: without the emulator override, either constructor yields the two
fixed production hostnames, and those hostnames differ from each other. -/
theorem production_endpoints_without_override :
    (∀ hint : Nat,
      (ClientOptions.mkDefault none hint).data_endpoint =
        "bigtable.googleapis.com" ∧
      (ClientOptions.mkDefault none hint).admin_endpoint =
        "bigtableadmin.googleapis.com") ∧
    (∀ (c : Cred) (hint : Nat),
      (ClientOptions.mkWithCredentials c none hint).data_endpoint =
        "bigtable.googleapis.com" ∧
      (ClientOptions.mkWithCredentials c none hint).admin_endpoint =
        "bigtableadmin.googleapis.com") ∧
    ("bigtable.googleapis.com" : String) ≠ "bigtableadmin.googleapis.com"
    := by
  refine ⟨fun hint => ?_, fun c hint => ?_, by decide⟩ <;>
    simp [ClientOptions.mkDefault, ClientOptions.mkWithCredentials]

/-- C10: the credentials-supplied constructor never consults the emulator
override — for every supplied credential handle and every environment
state, including one where the override is set, it keeps the production
endpoints and the supplied credentials; the default constructor is the one
that applies the override. -/
theorem credentialsCtor_ignores_environment :
    (∀ (c : Cred) (env : Option String) (hint : Nat),
      ClientOptions.mkWithCredentials c env hint =
        { credentials := c
          connection_pool_size := CalculateDefaultConnectionPoolSize hint
          data_endpoint := "bigtable.googleapis.com"
          admin_endpoint := "bigtableadmin.googleapis.com" }) ∧
    (∀ (v : String) (hint : Nat),
      (ClientOptions.mkDefault (some v) hint).data_endpoint = v ∧
      (ClientOptions.mkDefault (some v) hint).admin_endpoint = v) := by
  refine ⟨fun c env hint => ?_, fun v hint => ?_⟩ <;>
    simp [ClientOptions.mkDefault, ClientOptions.mkWithCredentials]

/-- C9: the sizing computation is pure and deterministic — it leaves the
world state unchanged, and its result depends only on the
hardware-concurrency component of the state. -/
theorem calculateDefaultConnectionPoolSizeSt_pure :
    (∀ s : WorldState, (CalculateDefaultConnectionPoolSizeSt s).2 = s) ∧
    (∀ s₁ s₂ : WorldState,
      s₁.hardwareConcurrency = s₂.hardwareConcurrency →
      (CalculateDefaultConnectionPoolSizeSt s₁).1 =
        (CalculateDefaultConnectionPoolSizeSt s₂).1) := by
  refine ⟨fun s => rfl, fun s₁ s₂ h => ?_⟩
  simp [CalculateDefaultConnectionPoolSizeSt, h]

/-- Witness for C9: two world states sharing the hint 6 but differing in
all other components produce the same pool size, and the state is
returned unchanged. -/
theorem calculateDefaultConnectionPoolSizeSt_pure_witness :
    (CalculateDefaultConnectionPoolSizeSt
        { hardwareConcurrency := 6, emulatorHost := none, otherState := 0 }).2
      = { hardwareConcurrency := 6, emulatorHost := none, otherState := 0 } ∧
    (CalculateDefaultConnectionPoolSizeSt
        { hardwareConcurrency := 6, emulatorHost := none, otherState := 0 }).1
      = (CalculateDefaultConnectionPoolSizeSt
        { hardwareConcurrency := 6, emulatorHost := some "h", otherState := 9 }).1 :=
  ⟨calculateDefaultConnectionPoolSizeSt_pure.1
      { hardwareConcurrency := 6, emulatorHost := none, otherState := 0 },
   calculateDefaultConnectionPoolSizeSt_pure.2
      { hardwareConcurrency := 6, emulatorHost := none, otherState := 0 }
      { hardwareConcurrency := 6, emulatorHost := some "h", otherState := 9 }
      rfl⟩

/-! ## Pub/Sub stub capability set and logging decorator.

The decorator class `SubscriberLogging` (subscriber_logging.h) overrides
every method of the `SubscriberStub` interface; its method bodies live in a
.cc file that is not part of the sampled sources, so they are modelled from
the spec (section 4.3). -/

/-- `grpc::ClientContext`, opaque to the decorator. -/
abbrev Ctx : Type := Nat

/-- `google::cloud::CompletionQueue`, opaque to the decorator. -/
abbrev Cq : Type := Nat

/-- RPC status: code 0 is success, any other code a failure, with an
optional human-readable message. -/
structure Status where
  code : Nat
  message : String
  deriving DecidableEq

/-- The OK status (default-constructed `Status{}`). -/
def Status.okStatus : Status := { code := 0, message := "" }

/-- `google::pubsub::v1::Subscription` (payload fields collapsed to the
name, enough to distinguish arbitrary request values). -/
structure Subscription where
  name : String
  deriving DecidableEq

/-- `google::pubsub::v1::GetSubscriptionRequest`. -/
structure GetSubscriptionRequest where
  subscription : String
  deriving DecidableEq

/-- `google::pubsub::v1::UpdateSubscriptionRequest`. -/
structure UpdateSubscriptionRequest where
  payload : String
  deriving DecidableEq

/-- `google::pubsub::v1::ListSubscriptionsRequest`. -/
structure ListSubscriptionsRequest where
  project : String
  deriving DecidableEq

/-- `google::pubsub::v1::ListSubscriptionsResponse`. -/
structure ListSubscriptionsResponse where
  names : List String
  deriving DecidableEq

/-- `google::pubsub::v1::DeleteSubscriptionRequest`. -/
structure DeleteSubscriptionRequest where
  subscription : String
  deriving DecidableEq

/-- `google::pubsub::v1::PullRequest`. -/
structure PullRequest where
  payload : String
  deriving DecidableEq

/-- `google::pubsub::v1::PullResponse`. -/
structure PullResponse where
  messages : List String
  deriving DecidableEq

/-- `google::pubsub::v1::AcknowledgeRequest`. -/
structure AcknowledgeRequest where
  ackIds : List String
  deriving DecidableEq

/-- `google::pubsub::v1::ModifyAckDeadlineRequest`. -/
structure ModifyAckDeadlineRequest where
  ackIds : List String
  deriving DecidableEq

/-- A record appended to the process-wide log sink: a "method entered"
record carrying the (possibly omitted) serialized request, or a "method
returned" record carrying the call's final status. -/
inductive LogRecord where
  | entered (op : String) (payload : Option String)
  | returned (op : String) (st : Status)
  deriving DecidableEq

/-- Modelled from the spec: rendering of a log record into the line the
sink stores — both records name the operation; the returned record also
names the status. -/
def LogRecord.render : LogRecord → String
  | .entered op payload => op ++ "(" ++ payload.getD "[omitted]" ++ ")"
  | .returned op st =>
      op ++ " returned status=" ++
        (if st.code == 0 then "OK" else st.message)

/-- Whether a record is a "method entered" record. -/
def LogRecord.isEntered : LogRecord → Bool
  | .entered _ _ => true
  | .returned _ _ => false

/-- Whether a record is a "method returned" record. -/
def LogRecord.isReturned : LogRecord → Bool
  | .entered _ _ => false
  | .returned _ _ => true

/-- The status a `StatusOr` result carries: OK for a value, the error
status otherwise. -/
def statusOf {α : Type} : Except Status α → Status
  | .ok _ => Status.okStatus
  | .error e => e

/-- `TracingOptions`: the truncation policy for logged payloads (the
field-selection knobs beyond truncation are not modelled; no claim
mentions them). -/
structure TracingOptions where
  truncate_string_field_longer_than : Nat
  deriving DecidableEq

/-- The subscriber stub capability set (`SubscriberStub`, from the method
list in subscriber_logging.h): one member per remote operation, returning
the result-or-failure together with the log records the call appended to
the sink.  A raw transport stub appends none.  Asynchronous members model
the future's eventual value. -/
structure SubscriberStub where
  createSubscription :
    Ctx → Subscription → Except Status Subscription × List LogRecord
  getSubscription :
    Ctx → GetSubscriptionRequest → Except Status Subscription × List LogRecord
  updateSubscription :
    Ctx → UpdateSubscriptionRequest →
      Except Status Subscription × List LogRecord
  listSubscriptions :
    Ctx → ListSubscriptionsRequest →
      Except Status ListSubscriptionsResponse × List LogRecord
  deleteSubscription :
    Ctx → DeleteSubscriptionRequest → Status × List LogRecord
  asyncPull :
    Cq → Ctx → PullRequest → Except Status PullResponse × List LogRecord
  asyncAcknowledge :
    Cq → Ctx → AcknowledgeRequest → Status × List LogRecord
  asyncModifyAckDeadline :
    Cq → Ctx → ModifyAckDeadlineRequest → Status × List LogRecord

/-- Modelled from the spec: truncation-aware serialization of a request
for logging.  `ser` is the underlying (possibly failing) serialization;
its output is truncated per the tracing options rather than failing, and
a serialization failure degrades to an omitted payload. -/
def serializeForLog (t : TracingOptions) (ser : String → Option String)
    (raw : String) : Option String :=
  (ser raw).map (fun s => s.take t.truncate_string_field_longer_than)

/-- Modelled from the spec (section 4.3): the three log points around one
delegated call — emit "entered" with the serialized request, delegate to
the child unchanged, emit "returned" with the call's final status.  The
call's result is the child's result, untouched. -/
def logWrap {α : Type} (op : String) (payload : Option String)
    (call : α × List LogRecord) (stOf : α → Status) :
    α × List LogRecord :=
  (call.1, LogRecord.entered op payload ::
    (call.2 ++ [LogRecord.returned op (stOf call.1)]))

/-- Modelled from the spec: the `SubscriberLogging` decorator
(subscriber_logging.h).  It holds one child and the tracing options, and
overrides every member of the capability set with the logged delegation of
`logWrap`; `ser` is the payload serialization ([it may fail; failure
degrades to an omitted payload, never to a call failure]). -/
def SubscriberLogging (child : SubscriberStub) (t : TracingOptions)
    (ser : String → Option String) : SubscriberStub :=
  { createSubscription := fun ctx req =>
      logWrap "CreateSubscription" (serializeForLog t ser req.name)
        (child.createSubscription ctx req) statusOf
    getSubscription := fun ctx req =>
      logWrap "GetSubscription" (serializeForLog t ser req.subscription)
        (child.getSubscription ctx req) statusOf
    updateSubscription := fun ctx req =>
      logWrap "UpdateSubscription" (serializeForLog t ser req.payload)
        (child.updateSubscription ctx req) statusOf
    listSubscriptions := fun ctx req =>
      logWrap "ListSubscriptions" (serializeForLog t ser req.project)
        (child.listSubscriptions ctx req) statusOf
    deleteSubscription := fun ctx req =>
      logWrap "DeleteSubscription" (serializeForLog t ser req.subscription)
        (child.deleteSubscription ctx req) (fun st => st)
    asyncPull := fun cq ctx req =>
      logWrap "AsyncPull" (serializeForLog t ser req.payload)
        (child.asyncPull cq ctx req) statusOf
    asyncAcknowledge := fun cq ctx req =>
      logWrap "AsyncAcknowledge"
        (serializeForLog t ser (String.intercalate "," req.ackIds))
        (child.asyncAcknowledge cq ctx req) (fun st => st)
    asyncModifyAckDeadline := fun cq ctx req =>
      logWrap "AsyncModifyAckDeadline"
        (serializeForLog t ser (String.intercalate "," req.ackIds))
        (child.asyncModifyAckDeadline cq ctx req) (fun st => st) }

/-! ## Topic admin connection scenario (from topic_admin_connection_test.cc;
the connection assembly and publisher logging decorator are modelled from
the spec, their implementations are not among the sampled sources). -/

/-- Whether `pat` is a leading segment of `hay` (on character lists). -/
def startsWithChars : List Char → List Char → Bool
  | [], _ => true
  | _ :: _, [] => false
  | a :: as, b :: bs => a == b && startsWithChars as bs

/-- Whether `pat` occurs somewhere inside `hay` (on character lists). -/
def occursInChars (pat : List Char) : List Char → Bool
  | [] => startsWithChars pat []
  | b :: bs => startsWithChars pat (b :: bs) || occursInChars pat bs

/-- Whether the string `pat` occurs as a substring of `hay`. -/
def containsSubstring (hay pat : String) : Bool :=
  occursInChars pat.toList hay.toList

/-- `google::pubsub::v1::Topic` (collapsed to its name). -/
structure Topic where
  name : String
  deriving DecidableEq

/-- `google::pubsub::v1::GetTopicRequest`. -/
structure GetTopicRequest where
  topic : String
  deriving DecidableEq

/-- `google::pubsub::v1::ListTopicsRequest`. -/
structure ListTopicsRequest where
  project : String
  deriving DecidableEq

/-- `google::pubsub::v1::ListTopicsResponse`. -/
structure ListTopicsResponse where
  names : List String
  deriving DecidableEq

/-- `google::pubsub::v1::DeleteTopicRequest`. -/
structure DeleteTopicRequest where
  topic : String
  deriving DecidableEq

/-- The publisher stub capability set: the members exercised by
topic_admin_connection_test.cc. -/
structure PublisherStub where
  createTopic : Ctx → Topic → Except Status Topic × List LogRecord
  getTopic : Ctx → GetTopicRequest → Except Status Topic × List LogRecord
  listTopics :
    Ctx → ListTopicsRequest → Except Status ListTopicsResponse × List LogRecord
  deleteTopic : Ctx → DeleteTopicRequest → Status × List LogRecord

/-- Modelled from the spec: the publisher-side logging decorator (the
counterpart of `SubscriberLogging` the logging-enabled topic admin
connection inserts), with the canonical serialization `ser`. -/
def PublisherLogging (child : PublisherStub) (t : TracingOptions)
    (ser : String → Option String) : PublisherStub :=
  { createTopic := fun ctx req =>
      logWrap "CreateTopic" (serializeForLog t ser req.name)
        (child.createTopic ctx req) statusOf
    getTopic := fun ctx req =>
      logWrap "GetTopic" (serializeForLog t ser req.topic)
        (child.getTopic ctx req) statusOf
    listTopics := fun ctx req =>
      logWrap "ListTopics" (serializeForLog t ser req.project)
        (child.listTopics ctx req) statusOf
    deleteTopic := fun ctx req =>
      logWrap "DeleteTopic" (serializeForLog t ser req.topic)
        (child.deleteTopic ctx req) (fun st => st) }

/-- `ConnectionOptions`: which components have tracing enabled
(`enable_tracing("rpc")` adds "rpc"), plus the tracing options. -/
structure ConnectionOptions where
  tracing_components : List String
  tracing_options : TracingOptions
  deriving DecidableEq

/-- Modelled from the spec (section 4.4): `MakeTopicAdminConnection` wires
the supplied stub and, when "rpc" tracing is enabled in the options, wraps
it in the logging decorator; otherwise it returns the stub undecorated. -/
def MakeTopicAdminConnection (opts : ConnectionOptions)
    (stub : PublisherStub) : PublisherStub :=
  if opts.tracing_components.contains "rpc" then
    PublisherLogging stub opts.tracing_options (fun s => some s)
  else
    stub

/-- The mock publisher stub of the DeleteWithLogging test: DeleteTopic
answers `Status{}` (success) and, being a raw stub, appends no log
records.  The other members answer fixed successes. -/
def deleteWithLoggingMock : PublisherStub :=
  { createTopic := fun _ req => (Except.ok req, [])
    getTopic := fun _ req => (Except.ok { name := req.topic }, [])
    listTopics := fun _ _ => (Except.ok { names := [] }, [])
    deleteTopic := fun _ _ => (Status.okStatus, []) }

/-- The DeleteWithLogging request: `Topic("test-project", "test-topic")`,
whose full name the mock expects. -/
def deleteWithLoggingRequest : DeleteTopicRequest :=
  { topic := "projects/test-project/topics/test-topic" }

/-- The result (status and appended log records) of the DeleteWithLogging
scenario: a delete-topic call through a connection assembled with
`enable_tracing("rpc")` over the mock stub. -/
def deleteWithLoggingResult : Status × List LogRecord :=
  (MakeTopicAdminConnection
      { tracing_components := ["rpc"]
        tracing_options := { truncate_string_field_longer_than := 128 } }
      deleteWithLoggingMock).deleteTopic 0 deleteWithLoggingRequest

/-- A concrete child stub used to instantiate the decorator theorems: the
create and pull members fail with NOT_FOUND, the rest succeed. -/
def notFoundStatus : Status := { code := 5, message := "subscription not found" }

/-- A raw (non-logging) subscriber stub with fixed answers and no log
output. -/
def mockSubscriberStub : SubscriberStub :=
  { createSubscription := fun _ _ => (Except.error notFoundStatus, [])
    getSubscription := fun _ req => (Except.ok { name := req.subscription }, [])
    updateSubscription := fun _ _ => (Except.ok { name := "updated" }, [])
    listSubscriptions := fun _ _ => (Except.ok { names := [] }, [])
    deleteSubscription := fun _ _ => (Status.okStatus, [])
    asyncPull := fun _ _ _ => (Except.error notFoundStatus, [])
    asyncAcknowledge := fun _ _ _ => (Status.okStatus, [])
    asyncModifyAckDeadline := fun _ _ _ => (Status.okStatus, []) }

/-- C6: the logging decorator covers the whole capability set — every one
of the eight members of the subscriber stub interface, synchronous and
asynchronous — and each one, invoked through the decorator, yields exactly
the result-or-failure the child yields, for every child, tracing options,
serialization, context, completion queue and request value. -/
theorem subscriberLogging_full_capability_transparent :
    ∀ (child : SubscriberStub) (t : TracingOptions)
      (ser : String → Option String) (ctx : Ctx) (cq : Cq),
    (∀ req, ((SubscriberLogging child t ser).createSubscription ctx req).1 =
      (child.createSubscription ctx req).1) ∧
    (∀ req, ((SubscriberLogging child t ser).getSubscription ctx req).1 =
      (child.getSubscription ctx req).1) ∧
    (∀ req, ((SubscriberLogging child t ser).updateSubscription ctx req).1 =
      (child.updateSubscription ctx req).1) ∧
    (∀ req, ((SubscriberLogging child t ser).listSubscriptions ctx req).1 =
      (child.listSubscriptions ctx req).1) ∧
    (∀ req, ((SubscriberLogging child t ser).deleteSubscription ctx req).1 =
      (child.deleteSubscription ctx req).1) ∧
    (∀ req, ((SubscriberLogging child t ser).asyncPull cq ctx req).1 =
      (child.asyncPull cq ctx req).1) ∧
    (∀ req, ((SubscriberLogging child t ser).asyncAcknowledge cq ctx req).1 =
      (child.asyncAcknowledge cq ctx req).1) ∧
    (∀ req,
      ((SubscriberLogging child t ser).asyncModifyAckDeadline cq ctx req).1 =
      (child.asyncModifyAckDeadline cq ctx req).1) :=
  fun _ _ _ _ _ =>
    ⟨fun _ => rfl, fun _ => rfl, fun _ => rfl, fun _ => rfl,
     fun _ => rfl, fun _ => rfl, fun _ => rfl, fun _ => rfl⟩

/-- C7: for every call through the logging decorator — every one of the
eight capability-set members, for every child, tracing options,
serializer, context, completion queue and request — the decorator returns
exactly the child's result-or-failure, unchanged in content, so it
introduces no new failure modes; and a failure internal to the
decorator's own logging (the serializer returning none on the request's
payload) degrades to an omitted payload in the "entered" record while the
call's result still equals the child's, for every member. -/
theorem subscriberLogging_preserves_status :
    ∀ (child : SubscriberStub) (t : TracingOptions)
      (ser : String → Option String) (ctx : Ctx) (cq : Cq),
    ((∀ req, ((SubscriberLogging child t ser).createSubscription ctx req).1 =
        (child.createSubscription ctx req).1) ∧
     (∀ req, ((SubscriberLogging child t ser).getSubscription ctx req).1 =
        (child.getSubscription ctx req).1) ∧
     (∀ req, ((SubscriberLogging child t ser).updateSubscription ctx req).1 =
        (child.updateSubscription ctx req).1) ∧
     (∀ req, ((SubscriberLogging child t ser).listSubscriptions ctx req).1 =
        (child.listSubscriptions ctx req).1) ∧
     (∀ req, ((SubscriberLogging child t ser).deleteSubscription ctx req).1 =
        (child.deleteSubscription ctx req).1) ∧
     (∀ req, ((SubscriberLogging child t ser).asyncPull cq ctx req).1 =
        (child.asyncPull cq ctx req).1) ∧
     (∀ req, ((SubscriberLogging child t ser).asyncAcknowledge cq ctx req).1 =
        (child.asyncAcknowledge cq ctx req).1) ∧
     (∀ req,
       ((SubscriberLogging child t ser).asyncModifyAckDeadline cq ctx req).1 =
        (child.asyncModifyAckDeadline cq ctx req).1)) ∧
    ((∀ req, ser req.name = none →
       (SubscriberLogging child t ser).createSubscription ctx req =
         ((child.createSubscription ctx req).1,
           LogRecord.entered "CreateSubscription" none ::
             ((child.createSubscription ctx req).2 ++
               [LogRecord.returned "CreateSubscription"
                 (statusOf (child.createSubscription ctx req).1)]))) ∧
     (∀ req, ser req.subscription = none →
       (SubscriberLogging child t ser).getSubscription ctx req =
         ((child.getSubscription ctx req).1,
           LogRecord.entered "GetSubscription" none ::
             ((child.getSubscription ctx req).2 ++
               [LogRecord.returned "GetSubscription"
                 (statusOf (child.getSubscription ctx req).1)]))) ∧
     (∀ req, ser req.payload = none →
       (SubscriberLogging child t ser).updateSubscription ctx req =
         ((child.updateSubscription ctx req).1,
           LogRecord.entered "UpdateSubscription" none ::
             ((child.updateSubscription ctx req).2 ++
               [LogRecord.returned "UpdateSubscription"
                 (statusOf (child.updateSubscription ctx req).1)]))) ∧
     (∀ req, ser req.project = none →
       (SubscriberLogging child t ser).listSubscriptions ctx req =
         ((child.listSubscriptions ctx req).1,
           LogRecord.entered "ListSubscriptions" none ::
             ((child.listSubscriptions ctx req).2 ++
               [LogRecord.returned "ListSubscriptions"
                 (statusOf (child.listSubscriptions ctx req).1)]))) ∧
     (∀ req, ser req.subscription = none →
       (SubscriberLogging child t ser).deleteSubscription ctx req =
         ((child.deleteSubscription ctx req).1,
           LogRecord.entered "DeleteSubscription" none ::
             ((child.deleteSubscription ctx req).2 ++
               [LogRecord.returned "DeleteSubscription"
                 (child.deleteSubscription ctx req).1]))) ∧
     (∀ req, ser req.payload = none →
       (SubscriberLogging child t ser).asyncPull cq ctx req =
         ((child.asyncPull cq ctx req).1,
           LogRecord.entered "AsyncPull" none ::
             ((child.asyncPull cq ctx req).2 ++
               [LogRecord.returned "AsyncPull"
                 (statusOf (child.asyncPull cq ctx req).1)]))) ∧
     (∀ req, ser (String.intercalate "," req.ackIds) = none →
       (SubscriberLogging child t ser).asyncAcknowledge cq ctx req =
         ((child.asyncAcknowledge cq ctx req).1,
           LogRecord.entered "AsyncAcknowledge" none ::
             ((child.asyncAcknowledge cq ctx req).2 ++
               [LogRecord.returned "AsyncAcknowledge"
                 (child.asyncAcknowledge cq ctx req).1]))) ∧
     (∀ req, ser (String.intercalate "," req.ackIds) = none →
       (SubscriberLogging child t ser).asyncModifyAckDeadline cq ctx req =
         ((child.asyncModifyAckDeadline cq ctx req).1,
           LogRecord.entered "AsyncModifyAckDeadline" none ::
             ((child.asyncModifyAckDeadline cq ctx req).2 ++
               [LogRecord.returned "AsyncModifyAckDeadline"
                 (child.asyncModifyAckDeadline cq ctx req).1])))) := by
  intro child t ser ctx cq
  constructor
  · exact ⟨fun _ => rfl, fun _ => rfl, fun _ => rfl, fun _ => rfl,
      fun _ => rfl, fun _ => rfl, fun _ => rfl, fun _ => rfl⟩
  · refine ⟨fun req h => ?_, fun req h => ?_, fun req h => ?_,
      fun req h => ?_, fun req h => ?_, fun req h => ?_,
      fun req h => ?_, fun req h => ?_⟩ <;>
      simp [SubscriberLogging, logWrap, serializeForLog, h]

/-- Witness for C7: through the decorator over the mock child with an
always-failing serializer, the successful get keeps its result, the
NOT_FOUND failure of create is returned unchanged with its payload
omitted, and the delete and acknowledge calls still succeed with omitted
payloads in their "entered" records. -/
theorem subscriberLogging_preserves_status_witness :
    (SubscriberStub.getSubscription
        (SubscriberLogging mockSubscriberStub
          { truncate_string_field_longer_than := 8 } (fun _ => none))
        0 { subscription := "sub" }).1 =
      (SubscriberStub.getSubscription mockSubscriberStub 0
        { subscription := "sub" }).1 ∧
    SubscriberStub.createSubscription
        (SubscriberLogging mockSubscriberStub
          { truncate_string_field_longer_than := 8 } (fun _ => none))
        0 { name := "sub" } =
      (Except.error notFoundStatus,
        [LogRecord.entered "CreateSubscription" none,
         LogRecord.returned "CreateSubscription" notFoundStatus]) ∧
    SubscriberStub.deleteSubscription
        (SubscriberLogging mockSubscriberStub
          { truncate_string_field_longer_than := 8 } (fun _ => none))
        0 { subscription := "sub" } =
      (Status.okStatus,
        [LogRecord.entered "DeleteSubscription" none,
         LogRecord.returned "DeleteSubscription" Status.okStatus]) ∧
    SubscriberStub.asyncAcknowledge
        (SubscriberLogging mockSubscriberStub
          { truncate_string_field_longer_than := 8 } (fun _ => none))
        0 0 { ackIds := [] } =
      (Status.okStatus,
        [LogRecord.entered "AsyncAcknowledge" none,
         LogRecord.returned "AsyncAcknowledge" Status.okStatus]) := by
  refine ⟨?_, ?_, ?_, ?_⟩
  · exact (subscriberLogging_preserves_status mockSubscriberStub
      { truncate_string_field_longer_than := 8 } (fun _ => none) 0 0).1.2.1
      { subscription := "sub" }
  · have h := (subscriberLogging_preserves_status mockSubscriberStub
      { truncate_string_field_longer_than := 8 } (fun _ => none) 0 0).2.1
      { name := "sub" } rfl
    simpa [mockSubscriberStub, statusOf] using h
  · have h := (subscriberLogging_preserves_status mockSubscriberStub
      { truncate_string_field_longer_than := 8 } (fun _ => none) 0 0).2.2.2.2.2.1
      { subscription := "sub" } rfl
    simpa [mockSubscriberStub] using h
  · have h := (subscriberLogging_preserves_status mockSubscriberStub
      { truncate_string_field_longer_than := 8 } (fun _ => none) 0 0).2.2.2.2.2.2.2.1
      { ackIds := [] } rfl
    simpa [mockSubscriberStub] using h


/-- C8: the DeleteWithLogging scenario — a successful delete-topic call
through a logging-enabled connection returns success to the caller,
appends exactly one "entered" and exactly one "returned" record, and the
returned record names the operation ("DeleteTopic" occurs in its rendered
line) and carries the OK status, not a failure. -/
theorem deleteWithLogging_scenario :
    deleteWithLoggingResult.1 = Status.okStatus ∧
    deleteWithLoggingResult.1.code = 0 ∧
    (deleteWithLoggingResult.2.filter LogRecord.isEntered).length = 1 ∧
    (deleteWithLoggingResult.2.filter LogRecord.isReturned).length = 1 ∧
    deleteWithLoggingResult.2.filter LogRecord.isReturned =
      [LogRecord.returned "DeleteTopic" Status.okStatus] ∧
    containsSubstring
      (LogRecord.render (LogRecord.returned "DeleteTopic" Status.okStatus))
      "DeleteTopic" = true := by
  decide
